import Mathlib

/-!
Shallow embedding of the client-side JavaScript of the BigDataApp landing
page (static/js/main.js and the variants embedded in README.md).

The code is event-driven DOM glue: on DOMContentLoaded a footer-year
handler runs and search-form submit handlers are attached.  We embed the
JSON values the handlers consume as an inductive `JValue` (numbers as
`Int`; the claims never involve fractional values), JS truthiness and
property access as total functions, and each submit handler as a pure
function from the input value and an abstract network outcome to the
final page state (requests issued, alert shown, results rendered).
-/

namespace BigDataApp

/-- JSON values as consumed by the client code.  Numbers are modelled as
`Int`; objects as association lists.  Absent properties read as `null`
(JS `undefined` and `null` are collapsed, both being falsy and both
failing the `Array.isArray` / `typeof x === "number"` tests). -/
inductive JValue where
  | null : JValue
  | bool (b : Bool) : JValue
  | num (n : Int) : JValue
  | str (s : String) : JValue
  | arr (xs : List JValue) : JValue
  | obj (fields : List (String × JValue)) : JValue

/-- JS truthiness of a value (`if (v)`).  `null`/`undefined`, `false`,
`0` and `""` are falsy; arrays and objects are always truthy. -/
def truthy : JValue → Bool
  | .null => false
  | .bool b => b
  | .num n => n != 0
  | .str s => s != ""
  | .arr _ => true
  | .obj _ => true

/-- Property access `v.k`: the first binding of `k` in an object,
`null` otherwise (JS yields `undefined` for missing properties and for
property access on primitives; access on `null` itself only happens in
the source behind truthiness guards). -/
def getField : JValue → String → JValue
  | .obj fields, k => match fields.lookup k with
    | some v => v
    | none => .null
  | _, _ => .null

/-- JS `a || b`: `a` when truthy, else `b`. -/
def jsOr (a b : JValue) : JValue := if truthy a then a else b

/-- JS `String.prototype.trim()`: the string with leading and trailing
whitespace removed (defined over the character list so that the kernel
can evaluate it). -/
def trimJS (s : String) : String :=
  String.mk (((s.data.dropWhile Char.isWhitespace).reverse.dropWhile
    Char.isWhitespace).reverse)

/-- Function `extraerHits` (README.md lines 189-200): adapts several response
shapes, returning `data.hits` when it is an array, else `data.hits.hits`
when `data.hits` is truthy and that is an array, else `data.resultados`
when that is an array, else `[]`. -/
def extraerHits (data : JValue) : List JValue :=
  match getField data "hits" with
  | .arr xs => xs
  | h =>
    match (if truthy h then getField h "hits" else .null) with
    | .arr ys => ys
    | _ =>
      match getField data "resultados" with
      | .arr zs => zs
      | _ => []

/-- The fallback chain as the spec states it (claim side): `data.hits`
when an array; otherwise `data.hits.hits` when an array; otherwise
`data.resultados` when an array; otherwise the empty array. -/
def extraerHitsSpec (data : JValue) : List JValue :=
  match getField data "hits" with
  | .arr xs => xs
  | h =>
    match getField h "hits" with
    | .arr ys => ys
    | _ =>
      match getField data "resultados" with
      | .arr zs => zs
      | _ => []

/-- Function `extraerTotal` (README.md lines 202-213): `data.total` when a number,
else `data.hits.total` when a number, else `data.hits.total.value` when a
number, else `hits.length`.  (The JS truthiness guards `data.hits &&` and
`data.hits.total &&` only prevent property access on `null`/`undefined`;
`getField` already reads `null` there, with the same outcome.) -/
def extraerTotal (data : JValue) (hits : List JValue) : Int :=
  match getField data "total" with
  | .num n => n
  | _ =>
    match getField (getField data "hits") "total" with
    | .num n => n
    | t =>
      match getField t "value" with
      | .num n => n
      | _ => (hits.length : Int)

/-- JS `const source = hit._source || hit.source || hit;` -/
def sourceOf (hit : JValue) : JValue :=
  jsOr (getField hit "_source") (jsOr (getField hit "source") hit)

/-- JS `source.anio || source.año || source.anio_publicacion || source.fecha || ""` -/
def campoAnio (source : JValue) : JValue :=
  jsOr (getField source "anio") (jsOr (getField source "año")
    (jsOr (getField source "anio_publicacion") (jsOr (getField source "fecha") (.str ""))))

/-- JS `source.tipo_norma || source.tipo_documento || source.tipo || ""` -/
def campoTipo (source : JValue) : JValue :=
  jsOr (getField source "tipo_norma")
    (jsOr (getField source "tipo_documento") (jsOr (getField source "tipo") (.str "")))

/-- JS `source.entidad || source.emisor || source.organismo || ""` -/
def campoEntidad (source : JValue) : JValue :=
  jsOr (getField source "entidad")
    (jsOr (getField source "emisor") (jsOr (getField source "organismo") (.str "")))

/-- JS `source.titulo || source.nombre_archivo || "Documento sin título"` -/
def campoTitulo (source : JValue) : JValue :=
  jsOr (getField source "titulo")
    (jsOr (getField source "nombre_archivo") (.str "Documento sin título"))

/-- JS `source.resumen || source.extracto || source.texto || source.contenido || ""` -/
def campoTextoLargo (source : JValue) : JValue :=
  jsOr (getField source "resumen") (jsOr (getField source "extracto")
    (jsOr (getField source "texto") (jsOr (getField source "contenido") (.str ""))))

/-- JS `if (snippet.length > 260) snippet = snippet.slice(0, 260) + "…";`
on a string: the first 260 characters followed by the one-character
ellipsis when longer than 260 characters, unchanged otherwise. -/
def truncate260 (s : String) : String :=
  if s.length > 260 then String.mk (s.data.take 260) ++ "…" else s

/-- JS `let snippet = textoLargo || titulo;` followed by the length-260
truncation.  JS `.length` is only meaningful on the string values the
data model provides; a non-string snippet fails the `> 260` test
(`undefined > 260` is false) and is left unchanged. -/
def snippetOf (source : JValue) : JValue :=
  match jsOr (campoTextoLargo source) (campoTitulo source) with
  | .str t => .str (truncate260 t)
  | v => v

/-- One rendered hit card (README.md lines 230-316): the data interpolated
into the `list-group-item` template. -/
structure ItemRender where
  index : Nat
  titulo : JValue
  anio : JValue
  tipo : JValue
  entidad : JValue
  snippet : JValue
  score : Option Int
  detalle : JValue

/-- The body of the `hits.forEach((hit, index) => ...)` render loop. -/
def renderHit (index : Nat) (hit : JValue) : ItemRender :=
  let source := sourceOf hit
  { index := index
    titulo := campoTitulo source
    anio := campoAnio source
    tipo := campoTipo source
    entidad := campoEntidad source
    snippet := snippetOf source
    score := match getField hit "_score" with
      | .num n => some n
      | _ => none
    detalle := source }

/-- Content of `resultados-container` after `renderResultados`: either the
single centered message div (its text) or the list of hit cards. -/
inductive ContainerContent where
  | message (text : String) : ContainerContent
  | items (xs : List ItemRender) : ContainerContent

/-- Page state produced by `renderResultados`. -/
structure RenderOut where
  ultimaBusqueda : List JValue
  totalText : String
  container : ContainerContent
  sectionVisible : Bool

/-- Function `renderResultados` (README.md lines 215-319): extracts hits and total,
stores the hits, sets the total badge, and either shows the
"No se encontraron resultados." message or renders one card per hit;
in both cases the results section is unhidden. -/
def renderResultados (data : JValue) : RenderOut :=
  let hits := extraerHits data
  let total := extraerTotal data hits
  if hits.length = 0 then
    { ultimaBusqueda := hits
      totalText := toString total
      container := .message "No se encontraron resultados."
      sectionVisible := true }
  else
    { ultimaBusqueda := hits
      totalText := toString total
      container := .items (hits.enum.map fun p => renderHit p.1 p.2)
      sectionVisible := true }

/-- An HTTP request issued through `fetch`. -/
structure Request where
  url : String
  method : String
  contentType : String
  body : JValue

/-- Abstract outcome of the one `fetch` of a submission, as the handler
observes it: the promise rejects (network error), or a response arrives
with a status and a body — `none` when `resp.json()` rejects, `some data`
when it parses. -/
inductive NetResult where
  | failure : NetResult
  | success (status : Nat) (body : Option JValue) : NetResult

/-- Property `resp.ok` per the fetch specification: status in the range 200-299. -/
def respOk (status : Nat) : Bool := 200 ≤ status && status < 300

/-- Final page state after the `form-busqueda` submit handler posting to
`/buscar-elastic` (README.md lines 324-370). -/
structure ElasticResult where
  prevented : Bool
  requests : List Request
  alert : Option (JValue × String)
  render : Option RenderOut

/-- The `/buscar-elastic` submit handler (README.md lines 324-370):
`preventDefault` unconditionally; empty trimmed input shows a warning and
stops; otherwise one POST of `{texto, size: 20}` is made and the outcome
is dispatched: rejected fetch or rejected `resp.json()` is caught with a
generic danger alert, `!resp.ok` shows a danger alert naming the HTTP
status, `success === false` shows `data.error || "Error en la búsqueda."`
as danger, and otherwise the alert is hidden and the data rendered.
The recorded `alert` is the final one (intermediate info alerts are
overwritten); `render = none` means `renderResultados` never ran. -/
def submitBuscarElastic (inputValue : String) (net : NetResult) : ElasticResult :=
  let texto := trimJS inputValue
  if texto = "" then
    { prevented := true
      requests := []
      alert := some (.str "Por favor ingresa un texto para buscar.", "warning")
      render := none }
  else
    let req : Request :=
      { url := "/buscar-elastic"
        method := "POST"
        contentType := "application/json"
        body := .obj [("texto", .str texto), ("size", .num 20)] }
    match net with
    | .failure =>
      { prevented := true
        requests := [req]
        alert := some (.str "Error de comunicación con el servidor.", "danger")
        render := none }
    | .success status body =>
      if respOk status = false then
        { prevented := true
          requests := [req]
          alert := some
            (.str ("Error al comunicarse con el servidor (HTTP " ++ toString status ++ ")."),
             "danger")
          render := none }
      else
        match body with
        | none =>
          { prevented := true
            requests := [req]
            alert := some (.str "Error de comunicación con el servidor.", "danger")
            render := none }
        | some data =>
          match getField data "success" with
          | .bool false =>
            { prevented := true
              requests := [req]
              alert := some (jsOr (getField data "error") (.str "Error en la búsqueda."), "danger")
              render := none }
          | _ =>
            { prevented := true
              requests := [req]
              alert := none
              render := some (renderResultados data) }

/-- One rendered document link of the `/buscar` handler (README.md lines
426-441): the anchor's href/target and the interpolated fields. -/
structure DocItem where
  href : JValue
  target : String
  titulo : JValue
  fecha : JValue
  resumen : JValue
  fuente : JValue

/-- Body of `data.resultados.forEach((doc) => ...)`. -/
def renderDoc (doc : JValue) : DocItem :=
  { href := jsOr (getField doc "url") (.str "#")
    target := if truthy (getField doc "url") then "_blank" else "_self"
    titulo := jsOr (getField doc "titulo") (.str "Documento sin título")
    fecha := jsOr (getField doc "fecha") (.str "")
    resumen := jsOr (getField doc "resumen") (.str "")
    fuente := jsOr (getField doc "fuente") (.str "") }

/-- Final page state after the `formBusqueda` submit handler posting to
`/buscar` (README.md lines 383-449). `items = none` means the render loop
never ran. -/
structure BuscarResult where
  prevented : Bool
  requests : List Request
  alert : Option (JValue × String)
  items : Option (List DocItem)

/-- The `/buscar` submit handler (README.md lines 383-449):
`preventDefault` unconditionally; empty trimmed input shows a warning and
stops; otherwise one POST of `{q}` is made.  A non-ok response throws and
lands, together with fetch/JSON rejections, in the catch block's generic
danger alert.  A parsed body without a non-empty `resultados` array shows
a warning; otherwise the documents are rendered and a success alert
reports their count. -/
def submitBuscar (inputValue : String) (net : NetResult) : BuscarResult :=
  let query := trimJS inputValue
  if query = "" then
    { prevented := true
      requests := []
      alert := some (.str "Debes escribir un texto de búsqueda.", "warning")
      items := none }
  else
    let req : Request :=
      { url := "/buscar"
        method := "POST"
        contentType := "application/json"
        body := .obj [("q", .str query)] }
    match net with
    | .failure =>
      { prevented := true
        requests := [req]
        alert := some (.str "Error de comunicación con el servidor.", "danger")
        items := none }
    | .success status body =>
      if respOk status = false then
        { prevented := true
          requests := [req]
          alert := some (.str "Error de comunicación con el servidor.", "danger")
          items := none }
      else
        match body with
        | none =>
          { prevented := true
            requests := [req]
            alert := some (.str "Error de comunicación con el servidor.", "danger")
            items := none }
        | some data =>
          match getField data "resultados" with
          | .arr rs =>
            if rs.length = 0 then
              { prevented := true
                requests := [req]
                alert := some
                  (.str "No se encontraron documentos para esa búsqueda.", "warning")
                items := none }
            else
              { prevented := true
                requests := [req]
                alert := some
                  (.str ("Se encontraron " ++ toString rs.length ++ " documentos."),
                   "success")
                items := some (rs.map renderDoc) }
          | _ =>
            { prevented := true
              requests := [req]
              alert := some
                (.str "No se encontraron documentos para esa búsqueda.", "warning")
              items := none }

/-- Observable state of the `formBusqueda` landing form handled by
`initSearchForm` (README.md lines 83-116): whether the input carries the
`is-invalid` class, whether the `.invalid-feedback` div exists, and
whether the button is disabled (loading state). -/
structure SearchFormState where
  inputInvalid : Bool
  feedbackShown : Bool
  btnDisabled : Bool

/-- The `initSearchForm` submit listener (README.md lines 90-115): on an
empty trimmed value it prevents the default submission, marks the input
invalid and ensures the feedback div exists; otherwise it clears the
invalid mark and disables the button, letting the default submission
proceed.  Returns the new form state and whether `preventDefault` ran.
This handler performs no `fetch` itself. -/
def initSearchFormSubmit (inputValue : String) (st : SearchFormState) :
    SearchFormState × Bool :=
  let query := trimJS inputValue
  if query = "" then
    ({ st with inputInvalid := true, feedbackShown := true }, true)
  else
    ({ st with inputInvalid := false, btnDisabled := true }, false)

/-- The DOMContentLoaded footer-year handler (static/js/main.js lines
5-8): if an element with id `current-year` exists its text content is set
to the current year, otherwise nothing happens.  The page is modelled as
an association list from element id to text content. -/
def setYearFooter (dom : List (String × String)) (year : Nat) :
    List (String × String) :=
  if (dom.lookup "current-year").isSome then
    dom.map fun p => if p.1 = "current-year" then (p.1, toString year) else p
  else
    dom

/-- A value the client data model treats as an optional string: absent
(`null`) or a string.  Every text field of a hit source has this shape. -/
def isStringy : JValue → Bool
  | .null => true
  | .str _ => true
  | _ => false

/-- The string carried by a value, `""` for non-strings. -/
def asStr : JValue → String
  | .str s => s
  | _ => ""

/-- The string stored under key `k`, `""` when absent or not a string. -/
def strField (source : JValue) (k : String) : String := asStr (getField source k)

/-- First non-empty string of a list, `""` when none. -/
def firstNonEmpty : List String → String
  | [] => ""
  | s :: rest => if s = "" then firstNonEmpty rest else s

/-- The snippet as the claim describes it: the source's long text — first
non-empty of `resumen`/`extracto`/`texto`/`contenido` — falling back to
the title (first non-empty of `titulo`/`nombre_archivo`/the default) when
all are empty, truncated to its first 260 characters plus `…` when it
exceeds 260 characters. -/
def snippetSpec (source : JValue) : String :=
  let longText := firstNonEmpty
    [strField source "resumen", strField source "extracto",
     strField source "texto", strField source "contenido"]
  let title := firstNonEmpty
    [strField source "titulo", strField source "nombre_archivo", "Documento sin título"]
  truncate260 (if longText = "" then title else longText)

/-- String `needle` occurs contiguously inside `hay`. -/
def strContains (hay needle : String) : Prop := needle.data <:+: hay.data

instance (hay needle : String) : Decidable (strContains hay needle) :=
  inferInstanceAs (Decidable (needle.data <:+: hay.data))

theorem getField_of_falsy (v : JValue) (k : String) (h : truthy v = false) :
    getField v k = .null := by
  cases v with
  | obj fields => simp [truthy] at h
  | arr xs => simp [truthy] at h
  | _ => rfl

theorem lookup_map_setYear (dom : List (String × String)) (year : Nat)
    (h : (dom.lookup "current-year").isSome = true) :
    (dom.map fun p => if p.1 = "current-year" then (p.1, toString year) else p).lookup
      "current-year" = some (toString year) := by
  induction dom with
  | nil => simp [List.lookup] at h
  | cons hd tl ih =>
    obtain ⟨k, v⟩ := hd
    by_cases hk : k = "current-year"
    · subst hk
      simp [List.lookup]
    · rw [List.lookup] at h
      have hbeq : ("current-year" == k) = false := by
        simp [Ne.symm hk]
      rw [hbeq] at h
      simp only [List.map_cons]
      rw [if_neg hk, List.lookup, hbeq]
      exact ih h

/-- C9: on page load, if an element with id `current-year` exists its
text content is set to the current calendar year; if no such element
exists nothing is changed. -/
theorem setYearFooter_correct (dom : List (String × String)) (year : Nat) :
    ((dom.lookup "current-year").isSome = true →
      (setYearFooter dom year).lookup "current-year" = some (toString year)) ∧
    (dom.lookup "current-year" = none → setYearFooter dom year = dom) := by
  constructor
  · intro h
    unfold setYearFooter
    rw [if_pos h]
    exact lookup_map_setYear dom year h
  · intro h
    unfold setYearFooter
    rw [if_neg (by simp [h])]

theorem setYearFooter_correct_witness :
    (setYearFooter [("current-year", "2024"), ("footer", "x")] 2026).lookup "current-year"
        = some "2026" ∧
    setYearFooter [("footer", "x")] 2026 = [("footer", "x")] :=
  ⟨(setYearFooter_correct [("current-year", "2024"), ("footer", "x")] 2026).1 rfl,
   (setYearFooter_correct [("footer", "x")] 2026).2 rfl⟩

/-- C8: `extraerHits` follows the stated fallback chain — `data.hits`
when it is an array, otherwise `data.hits.hits` when that is an array,
otherwise `data.resultados` when that is an array, otherwise `[]` — and
(being `List`-valued) always hands downstream code an array. -/
theorem extraerHits_follows_chain (data : JValue) :
    extraerHits data = extraerHitsSpec data := by
  unfold extraerHits extraerHitsSpec
  cases hh : getField data "hits" with
  | arr xs => rfl
  | null => rfl
  | bool b => cases b <;> rfl
  | num n => simp [getField]
  | str s => simp [getField]
  | obj fields => simp [truthy]

/-- C1: a submit of the search form with non-empty trimmed input issues
exactly one network request, whatever the network outcome — no retry and
no second call — in both versions of the handler. -/
theorem one_request_per_submit (inputValue : String) (net : NetResult)
    (h : trimJS inputValue ≠ "") :
    (submitBuscarElastic inputValue net).requests.length = 1 ∧
    (submitBuscar inputValue net).requests.length = 1 := by
  constructor
  · unfold submitBuscarElastic
    rw [if_neg h]
    cases net with
    | failure => rfl
    | success status body =>
      dsimp only
      split
      · rfl
      · cases body with
        | none => rfl
        | some data =>
          dsimp only
          split <;> rfl
  · unfold submitBuscar
    rw [if_neg h]
    cases net with
    | failure => rfl
    | success status body =>
      dsimp only
      split
      · rfl
      · cases body with
        | none => rfl
        | some data =>
          dsimp only
          split
          · split <;> rfl
          · rfl

theorem one_request_per_submit_witness :
    (trimJS "ley 142" ≠ "") ∧
    (submitBuscarElastic "ley 142" .failure).requests.length = 1 ∧
    (submitBuscar "ley 142" .failure).requests.length = 1 :=
  ⟨by decide, one_request_per_submit "ley 142" .failure (by decide)⟩

/-- C2: a submit with empty trimmed input makes no network request,
blocks the default submission, and shows a warning alert (in the fetch
handlers) or marks the input invalid with inline feedback (in
`initSearchForm`). -/
theorem empty_query_blocked (inputValue : String) (net : NetResult)
    (st : SearchFormState) (h : trimJS inputValue = "") :
    (submitBuscarElastic inputValue net).requests = [] ∧
    (submitBuscarElastic inputValue net).prevented = true ∧
    (submitBuscarElastic inputValue net).alert =
      some (.str "Por favor ingresa un texto para buscar.", "warning") ∧
    (submitBuscar inputValue net).requests = [] ∧
    (submitBuscar inputValue net).prevented = true ∧
    (submitBuscar inputValue net).alert =
      some (.str "Debes escribir un texto de búsqueda.", "warning") ∧
    (initSearchFormSubmit inputValue st).2 = true ∧
    (initSearchFormSubmit inputValue st).1.inputInvalid = true ∧
    (initSearchFormSubmit inputValue st).1.feedbackShown = true := by
  unfold submitBuscarElastic submitBuscar initSearchFormSubmit
  rw [h]
  simp

theorem empty_query_blocked_witness :
    (trimJS "   " = "") ∧
    (submitBuscarElastic "   " .failure).requests = [] ∧
    (initSearchFormSubmit "   " ⟨false, false, false⟩).2 = true :=
  ⟨by decide,
   (empty_query_blocked "   " .failure ⟨false, false, false⟩ (by decide)).1,
   (empty_query_blocked "   " .failure ⟨false, false, false⟩ (by decide)).2.2.2.2.2.2.1⟩

/-- C7: with non-empty trimmed query `q`, the one request of the
`/buscar-elastic` handler is a POST to `/buscar-elastic` with
Content-Type `application/json` and JSON body `{texto: q, size: 20}`,
`texto` a string and `size` a number. -/
theorem elastic_request_shape (inputValue : String) (net : NetResult)
    (h : trimJS inputValue ≠ "") :
    (submitBuscarElastic inputValue net).requests =
      [{ url := "/buscar-elastic"
         method := "POST"
         contentType := "application/json"
         body := .obj [("texto", .str (trimJS inputValue)), ("size", .num 20)] }] := by
  unfold submitBuscarElastic
  rw [if_neg h]
  cases net with
  | failure => rfl
  | success status body =>
    dsimp only
    split
    · rfl
    · cases body with
      | none => rfl
      | some data =>
        dsimp only
        split <;> rfl

theorem elastic_request_shape_witness :
    (trimJS "minas" ≠ "") ∧
    (submitBuscarElastic "minas" .failure).requests =
      [{ url := "/buscar-elastic"
         method := "POST"
         contentType := "application/json"
         body := .obj [("texto", .str "minas"), ("size", .num 20)] }] :=
  ⟨by decide, elastic_request_shape "minas" .failure (by decide)⟩

/-- C3: a successful response (2xx, `success` not `false`) whose
extracted hit list is empty renders exactly the message
"No se encontraron resultados." in the results container and unhides the
results section. -/
theorem zero_hits_message (inputValue : String) (status : Nat) (data : JValue)
    (hq : trimJS inputValue ≠ "") (hok : respOk status = true)
    (hsucc : getField data "success" ≠ .bool false)
    (hhits : extraerHits data = []) :
    (submitBuscarElastic inputValue (.success status (some data))).render =
      some (renderResultados data) ∧
    (renderResultados data).container = .message "No se encontraron resultados." ∧
    (renderResultados data).sectionVisible = true := by
  refine ⟨?_, ?_, ?_⟩
  · unfold submitBuscarElastic
    rw [if_neg hq]
    dsimp only
    rw [if_neg (by simp [hok])]
    cases hs : getField data "success" with
    | bool b =>
      cases b with
      | false => exact absurd hs hsucc
      | true => rfl
    | null => rfl
    | num n => rfl
    | str s => rfl
    | arr xs => rfl
    | obj fields => rfl
  · unfold renderResultados
    rw [hhits]
    rfl
  · unfold renderResultados
    rw [hhits]
    rfl

theorem zero_hits_message_witness :
    (trimJS "ley" ≠ "") ∧
    (submitBuscarElastic "ley"
        (.success 200 (some (.obj [("hits", .arr [])])))).render =
      some (renderResultados (.obj [("hits", .arr [])])) ∧
    (renderResultados (.obj [("hits", .arr [])])).container =
      .message "No se encontraron resultados." :=
  ⟨by decide,
   (zero_hits_message "ley" 200 (.obj [("hits", .arr [])]) (by decide) (by decide)
      (fun hc => nomatch hc) rfl).1,
   (zero_hits_message "ley" 200 (.obj [("hits", .arr [])]) (by decide) (by decide)
      (fun hc => nomatch hc) rfl).2.1⟩

/-- C4 counterexample: a 2xx response with `success === false` whose
`error` field is the empty string — the alert shows the fallback text
"Error en la búsqueda.", not the response's `error` field. -/
theorem error_field_not_always_shown :
    getField (.obj [("success", .bool false), ("error", .str "")]) "error" = .str "" ∧
    (submitBuscarElastic "ley"
        (.success 200 (some (.obj [("success", .bool false), ("error", .str "")])))).alert =
      some (.str "Error en la búsqueda.", "danger") ∧
    ("Error en la búsqueda." : String) ≠ "" :=
  ⟨rfl, rfl, by decide⟩

/-- C4 (amended): on a 2xx response with `success === false` the handler
shows `data.error || "Error en la búsqueda."` as a danger alert — the
response's `error` field whenever that is truthy, the fallback text
otherwise — and renders no results. -/
theorem success_false_error_alert (inputValue : String) (status : Nat) (data : JValue)
    (hq : trimJS inputValue ≠ "") (hok : respOk status = true)
    (hsucc : getField data "success" = .bool false) :
    (submitBuscarElastic inputValue (.success status (some data))).alert =
      some (jsOr (getField data "error") (.str "Error en la búsqueda."), "danger") ∧
    (truthy (getField data "error") = true →
      (submitBuscarElastic inputValue (.success status (some data))).alert =
        some (getField data "error", "danger")) ∧
    (submitBuscarElastic inputValue (.success status (some data))).render = none := by
  have hmain :
      submitBuscarElastic inputValue (.success status (some data)) =
        { prevented := true
          requests := [{ url := "/buscar-elastic"
                         method := "POST"
                         contentType := "application/json"
                         body := .obj [("texto", .str (trimJS inputValue)),
                                       ("size", .num 20)] }]
          alert := some (jsOr (getField data "error") (.str "Error en la búsqueda."),
                         "danger")
          render := none } := by
    unfold submitBuscarElastic
    rw [if_neg hq]
    dsimp only
    rw [if_neg (by simp [hok]), hsucc]
  refine ⟨by rw [hmain], ?_, by rw [hmain]⟩
  intro ht
  rw [hmain]
  simp only [jsOr, ht, if_pos]

theorem success_false_error_alert_witness :
    (trimJS "ley" ≠ "") ∧
    (submitBuscarElastic "ley"
        (.success 200 (some (.obj [("success", .bool false),
                                   ("error", .str "índice caído")])))).alert =
      some (.str "índice caído", "danger") ∧
    (submitBuscarElastic "ley"
        (.success 200 (some (.obj [("success", .bool false),
                                   ("error", .str "índice caído")])))).render = none :=
  ⟨by decide,
   (success_false_error_alert "ley" 200
      (.obj [("success", .bool false), ("error", .str "índice caído")])
      (by decide) (by decide) rfl).2.1 (by decide),
   (success_false_error_alert "ley" 200
      (.obj [("success", .bool false), ("error", .str "índice caído")])
      (by decide) (by decide) rfl).2.2⟩

/-- C5 counterexample: in the `formBusqueda` handler a non-2xx response
(HTTP 500) is turned into a thrown error and caught, showing the generic
danger alert "Error de comunicación con el servidor." — which does not
contain the status code. -/
theorem status_code_alert_counterexample :
    (submitBuscar "energia" (.success 500 none)).alert =
      some (.str "Error de comunicación con el servidor.", "danger") ∧
    (submitBuscar "energia" (.success 500 none)).items = none ∧
    ¬ strContains "Error de comunicación con el servidor." "500" :=
  ⟨rfl, rfl, by decide⟩

/-- C5 (amended): on a non-2xx response no results are rendered and a
danger alert is shown in both handlers; in the `/buscar-elastic` handler
its message names the HTTP status code, while the `/buscar` handler shows
the generic communication-error message without the status code. -/
theorem non_ok_danger_alert (inputValue : String) (status : Nat) (body : Option JValue)
    (hq : trimJS inputValue ≠ "") (hok : respOk status = false) :
    (submitBuscarElastic inputValue (.success status body)).alert =
      some (.str ("Error al comunicarse con el servidor (HTTP " ++ toString status ++ ")."),
            "danger") ∧
    strContains ("Error al comunicarse con el servidor (HTTP " ++ toString status ++ ").")
      (toString status) ∧
    (submitBuscarElastic inputValue (.success status body)).render = none ∧
    (submitBuscar inputValue (.success status body)).alert =
      some (.str "Error de comunicación con el servidor.", "danger") ∧
    (submitBuscar inputValue (.success status body)).items = none := by
  refine ⟨?_, ?_, ?_, ?_, ?_⟩
  · unfold submitBuscarElastic
    rw [if_neg hq]
    dsimp only
    rw [if_pos hok]
  · exact ⟨"Error al comunicarse con el servidor (HTTP ".data, ").".data, by
      simp [strContains, String.data_append]⟩
  · unfold submitBuscarElastic
    rw [if_neg hq]
    dsimp only
    rw [if_pos hok]
  · unfold submitBuscar
    rw [if_neg hq]
    dsimp only
    rw [if_pos hok]
  · unfold submitBuscar
    rw [if_neg hq]
    dsimp only
    rw [if_pos hok]

theorem non_ok_danger_alert_witness :
    (trimJS "gas" ≠ "") ∧
    (respOk 404 = false) ∧
    (submitBuscarElastic "gas" (.success 404 none)).alert =
      some (.str "Error al comunicarse con el servidor (HTTP 404).", "danger") ∧
    (submitBuscar "gas" (.success 404 none)).alert =
      some (.str "Error de comunicación con el servidor.", "danger") :=
  ⟨by decide, by decide,
   (non_ok_danger_alert "gas" 404 none (by decide) (by decide)).1,
   (non_ok_danger_alert "gas" 404 none (by decide) (by decide)).2.2.2.1⟩

/-- C6: a rejected fetch and a rejected `resp.json()` are both caught and
shown as the generic danger alert "Error de comunicación con el
servidor.", and the single request of the submission is not retried, in
both handlers. -/
theorem exception_generic_alert (inputValue : String) (status : Nat)
    (hq : trimJS inputValue ≠ "") (hok : respOk status = true) :
    ((submitBuscarElastic inputValue .failure).alert =
        some (.str "Error de comunicación con el servidor.", "danger") ∧
      (submitBuscarElastic inputValue .failure).requests.length = 1) ∧
    ((submitBuscarElastic inputValue (.success status none)).alert =
        some (.str "Error de comunicación con el servidor.", "danger") ∧
      (submitBuscarElastic inputValue (.success status none)).requests.length = 1) ∧
    ((submitBuscar inputValue .failure).alert =
        some (.str "Error de comunicación con el servidor.", "danger") ∧
      (submitBuscar inputValue .failure).requests.length = 1) ∧
    ((submitBuscar inputValue (.success status none)).alert =
        some (.str "Error de comunicación con el servidor.", "danger") ∧
      (submitBuscar inputValue (.success status none)).requests.length = 1) := by
  refine ⟨⟨?_, ?_⟩, ⟨?_, ?_⟩, ⟨?_, ?_⟩, ⟨?_, ?_⟩⟩
  · unfold submitBuscarElastic
    rw [if_neg hq]
  · unfold submitBuscarElastic
    rw [if_neg hq]
    rfl
  · unfold submitBuscarElastic
    rw [if_neg hq]
    dsimp only
    rw [if_neg (by simp [hok])]
  · unfold submitBuscarElastic
    rw [if_neg hq]
    dsimp only
    rw [if_neg (by simp [hok])]
    rfl
  · unfold submitBuscar
    rw [if_neg hq]
  · unfold submitBuscar
    rw [if_neg hq]
    rfl
  · unfold submitBuscar
    rw [if_neg hq]
    dsimp only
    rw [if_neg (by simp [hok])]
  · unfold submitBuscar
    rw [if_neg hq]
    dsimp only
    rw [if_neg (by simp [hok])]
    rfl

theorem exception_generic_alert_witness :
    (trimJS "carbon" ≠ "") ∧
    (respOk 200 = true) ∧
    (submitBuscarElastic "carbon" .failure).alert =
      some (.str "Error de comunicación con el servidor.", "danger") ∧
    (submitBuscar "carbon" (.success 200 none)).alert =
      some (.str "Error de comunicación con el servidor.", "danger") :=
  ⟨by decide, by decide,
   (exception_generic_alert "carbon" 200 (by decide) (by decide)).1.1,
   (exception_generic_alert "carbon" 200 (by decide) (by decide)).2.2.2.1⟩

theorem jsOr_str_str (a : JValue) (s : String) (h : isStringy a = true) :
    jsOr a (.str s) = .str (if asStr a = "" then s else asStr a) := by
  cases a with
  | null => simp [jsOr, truthy, asStr]
  | str t =>
    by_cases ht : t = ""
    · subst ht
      simp [jsOr, truthy, asStr]
    · simp [jsOr, truthy, asStr, ht]
  | bool b => simp [isStringy] at h
  | num n => simp [isStringy] at h
  | arr xs => simp [isStringy] at h
  | obj fields => simp [isStringy] at h

theorem campoTextoLargo_stringy (source : JValue)
    (h1 : isStringy (getField source "resumen") = true)
    (h2 : isStringy (getField source "extracto") = true)
    (h3 : isStringy (getField source "texto") = true)
    (h4 : isStringy (getField source "contenido") = true) :
    campoTextoLargo source =
      .str (firstNonEmpty [strField source "resumen", strField source "extracto",
        strField source "texto", strField source "contenido"]) := by
  unfold campoTextoLargo
  rw [jsOr_str_str _ _ h4, jsOr_str_str _ _ h3, jsOr_str_str _ _ h2, jsOr_str_str _ _ h1]
  simp [firstNonEmpty, strField]

theorem campoTitulo_stringy (source : JValue)
    (h5 : isStringy (getField source "titulo") = true)
    (h6 : isStringy (getField source "nombre_archivo") = true) :
    campoTitulo source =
      .str (firstNonEmpty [strField source "titulo", strField source "nombre_archivo",
        "Documento sin título"]) := by
  unfold campoTitulo
  rw [jsOr_str_str _ _ h6, jsOr_str_str _ _ h5]
  simp [firstNonEmpty, strField]

theorem jsOr_str_lit (s t : String) :
    jsOr (.str s) (.str t) = .str (if s = "" then t else s) := by
  by_cases hs : s = ""
  · subst hs
    simp [jsOr, truthy]
  · simp [jsOr, truthy, hs]

theorem truncate260_length (s : String) : (truncate260 s).length ≤ 261 := by
  unfold truncate260
  split
  · rw [String.length_append, String.length_mk, List.length_take]
    have h1 : "…".length = 1 := rfl
    rw [h1]
    omega
  · rename_i h
    omega

/-- C10: for a rendered hit whose source text fields are optional
strings, the snippet is the source's long text
(`resumen`/`extracto`/`texto`/`contenido`, falling back to the title when
all are empty), truncated to its first 260 characters plus `…` when it
exceeds 260 characters — so the snippet never exceeds 261 characters. -/
theorem snippet_correct (i : Nat) (hit : JValue)
    (h1 : isStringy (getField (sourceOf hit) "resumen") = true)
    (h2 : isStringy (getField (sourceOf hit) "extracto") = true)
    (h3 : isStringy (getField (sourceOf hit) "texto") = true)
    (h4 : isStringy (getField (sourceOf hit) "contenido") = true)
    (h5 : isStringy (getField (sourceOf hit) "titulo") = true)
    (h6 : isStringy (getField (sourceOf hit) "nombre_archivo") = true) :
    (renderHit i hit).snippet = .str (snippetSpec (sourceOf hit)) ∧
    (snippetSpec (sourceOf hit)).length ≤ 261 := by
  constructor
  · show snippetOf (sourceOf hit) = .str (snippetSpec (sourceOf hit))
    unfold snippetOf snippetSpec
    rw [campoTextoLargo_stringy _ h1 h2 h3 h4, campoTitulo_stringy _ h5 h6]
    rw [jsOr_str_lit]
  · exact truncate260_length _

theorem snippet_correct_witness :
    (renderHit 0 (.obj [("_source",
        .obj [("titulo", .str "Resolución 40123"),
              ("resumen", .str "Se adoptan disposiciones generales.")])])).snippet =
      .str (snippetSpec (sourceOf (.obj [("_source",
        .obj [("titulo", .str "Resolución 40123"),
              ("resumen", .str "Se adoptan disposiciones generales.")])]))) ∧
    (snippetSpec (sourceOf (.obj [("_source",
        .obj [("titulo", .str "Resolución 40123"),
              ("resumen", .str "Se adoptan disposiciones generales.")])]))).length ≤ 261 :=
  snippet_correct 0
    (.obj [("_source",
        .obj [("titulo", .str "Resolución 40123"),
              ("resumen", .str "Se adoptan disposiciones generales.")])])
    rfl rfl rfl rfl rfl rfl


end BigDataApp
